import Mathlib

/-!
Verification of the stdio-to-HTTP MCP bridge (mcp-chroma-bridge/mcp_chroma_bridge.py).

The bridge reads newline-delimited JSON-RPC messages, dispatches on the
method field, forwards tool calls as HTTP POSTs to a remote gateway, and
normalizes the gateway's responses into JSON-RPC envelopes.  The embedding
below translates the Python source function by function:

  - Json             : the JSON values manipulated by the bridge (numbers
                       restricted to integers, which is all the bridge's
                       own constants use; Python None and JSON null are the
                       same object, so both are Json.null)
  - Json.dumps       : Python json.dumps with its default separators and
                       ensure_ascii=True escaping
  - Gateway          : the remote HTTP surface as an oracle: each request
                       either raises (connection error and the like) or
                       yields a status code, a body text, and the outcome
                       of response.json() on that body
  - handle_response  : lines 112-160 (raise_for_status, response.json(),
                       the jsonrpc-membership check and the re-wrapping,
                       and the two except blocks)
  - forward_to_remote: lines 80-160 of the source
  - get_remote_tools : lines 206-225
  - get_default_tools: lines 227-330
  - handle_message   : the dispatch on one message inside the loop body of
                       process_messages, lines 174-202
  - read_message     : lines 67-78
  - process_messages : lines 162-204, driven by a list of input lines

Every function also returns the list of HTTP calls it performed, in order,
so that claims about which network traffic a message causes are statable.
-/

/-- JSON values.  Python None and JSON null coincide, so dict.get defaults
of None are represented by Json.null. -/
inductive Json where
  | null
  | bool (b : Bool)
  | num (n : Int)
  | str (s : String)
  | arr (xs : List Json)
  | obj (kvs : List (String × Json))

/-- Lowercase hexadecimal digit, as produced by Python json escapes. -/
def hex_digit (n : Nat) : String :=
  if n = 0 then "0" else if n = 1 then "1" else if n = 2 then "2"
  else if n = 3 then "3" else if n = 4 then "4" else if n = 5 then "5"
  else if n = 6 then "6" else if n = 7 then "7" else if n = 8 then "8"
  else if n = 9 then "9" else if n = 10 then "a" else if n = 11 then "b"
  else if n = 12 then "c" else if n = 13 then "d" else if n = 14 then "e"
  else "f"

/-- Four-digit lowercase hex, the payload of a \u escape. -/
def hex4 (n : Nat) : String :=
  hex_digit (n / 4096 % 16) ++ hex_digit (n / 256 % 16) ++
  hex_digit (n / 16 % 16) ++ hex_digit (n % 16)

/-- Escape one character the way Python json.dumps (ensure_ascii=True)
does: the two-character escapes for quote, backslash and the common
control characters, \uXXXX for other control and all non-ASCII characters
(surrogate pairs above the BMP), everything else verbatim. -/
def esc_char (c : Char) : String :=
  let n := c.toNat
  if n = 34 then "\\\""
  else if n = 92 then "\\\\"
  else if n = 10 then "\\n"
  else if n = 13 then "\\r"
  else if n = 9 then "\\t"
  else if n = 8 then "\\b"
  else if n = 12 then "\\f"
  else if n < 32 || n > 126 then
    if n ≤ 65535 then "\\u" ++ hex4 n
    else
      "\\u" ++ hex4 (55296 + (n - 65536) / 1024) ++
      "\\u" ++ hex4 (56320 + (n - 65536) % 1024)
  else String.singleton c

/-- Serialize a string literal as Python json.dumps does. -/
def dump_string (s : String) : String :=
  "\"" ++ String.join (s.toList.map esc_char) ++ "\""

mutual

/-- Python json.dumps with the default separators (comma-space and
colon-space) and default key order (insertion order, not sorted). -/
def Json.dumps : Json → String
  | Json.null => "null"
  | Json.bool true => "true"
  | Json.bool false => "false"
  | Json.num n => toString n
  | Json.str s => dump_string s
  | Json.arr xs => "[" ++ dumps_list xs ++ "]"
  | Json.obj kvs => "\x7b" ++ dumps_pairs kvs ++ "\x7d"

/-- Comma-separated serialization of array elements. -/
def dumps_list : List Json → String
  | [] => ""
  | [x] => Json.dumps x
  | x :: y :: rest => Json.dumps x ++ ", " ++ dumps_list (y :: rest)

/-- Comma-separated serialization of object members. -/
def dumps_pairs : List (String × Json) → String
  | [] => ""
  | [(k, v)] => dump_string k ++ ": " ++ Json.dumps v
  | (k, v) :: p :: rest => dump_string k ++ ": " ++ Json.dumps v ++ ", " ++ dumps_pairs (p :: rest)

end

/-- Python d.get(k): the value when the key is present, None (= null)
otherwise.  Inbound messages are dicts, embedded as association lists with
distinct keys (json.loads never produces duplicates). -/
def py_get (msg : List (String × Json)) (k : String) : Json :=
  (List.lookup k msg).getD Json.null

/-- Python message.get("method") == m for a string literal m: true exactly
when the key is present with that string value (None or a non-string value
never equals a str). -/
def is_method (msg : List (String × Json)) (m : String) : Bool :=
  match List.lookup "method" msg with
  | some (Json.str s) => s == m
  | _ => false

/-- Python str(KeyError(k)): the repr of the missing key, i.e. the key in
single quotes. -/
def key_error_str (k : String) : String :=
  "\x27" ++ k ++ "\x27"

/-- Python type name of a JSON value, as it appears in TypeError and
AttributeError messages. -/
def py_type_name : Json → String
  | Json.null => "NoneType"
  | Json.bool _ => "bool"
  | Json.num _ => "int"
  | Json.str _ => "str"
  | Json.arr _ => "list"
  | Json.obj _ => "dict"

/-- Python str(e) for the TypeError raised by subscripting a non-dict
value with a string key, per value kind (the dict case never raises). -/
def subscript_error_str : Json → String
  | Json.arr _ => "list indices must be integers or slices, not str"
  | Json.str _ => "string indices must be integers, not \x27str\x27"
  | j => "\x27" ++ py_type_name j ++ "\x27 object is not subscriptable"

/-- Python s.startswith(pre), as a prefix test on the character lists. -/
def starts_with (s pre : String) : Bool :=
  pre.toList.isPrefixOf s.toList

/-- Whether pat occurs as a contiguous run inside the character list l. -/
def chars_contain (pat : List Char) : List Char → Bool
  | [] => pat.isEmpty
  | c :: rest => pat.isPrefixOf (c :: rest) || chars_contain pat rest

/-- Python substring membership, pat in s. -/
def str_contains (s pat : String) : Bool :=
  chars_contain pat.toList s.toList

/-- Python membership test among list elements: "jsonrpc" in xs.  Only a
string element can compare equal to the string "jsonrpc". -/
def list_has_jsonrpc : List Json → Bool
  | [] => false
  | Json.str s :: rest => s == "jsonrpc" || list_has_jsonrpc rest
  | _ :: rest => list_has_jsonrpc rest

/-- Line 116 of the source: the Python expression ("jsonrpc" not in
result).  On a dict it is a key test, on a list a membership test, on a
string a substring test; on any other value Python raises TypeError, whose
str(e) is returned on the error side. -/
def not_in_jsonrpc : Json → Except String Bool
  | Json.obj kvs => Except.ok (List.lookup "jsonrpc" kvs).isNone
  | Json.arr xs => Except.ok (! list_has_jsonrpc xs)
  | Json.str s => Except.ok (! str_contains s "jsonrpc")
  | j => Except.error ("argument of type \x27" ++ py_type_name j ++ "\x27 is not iterable")

/-- Line 125 of the source: json.dumps(result) if not isinstance(result,
str) else result. -/
def py_text_wrap : Json → String
  | Json.str s => s
  | j => Json.dumps j

/-- One HTTP request issued by the bridge's client. -/
inductive HttpCall where
  | post (url : String) (body : Json)
  | get (url : String)

/-- An HTTP response as the bridge observes it: the status code, the body
text (used for error data), and the outcome of response.json() on that
body (error side carries str(e) of the decode failure). -/
structure HttpResp where
  status : Nat
  text : String
  jsonBody : Except String Json

/-- Outcome of one HTTP request: a response, or a raised exception
(connection refused, timeout, ...) carrying str(e). -/
inductive HttpResult where
  | ok (r : HttpResp)
  | exc (msg : String)

/-- The remote gateway as an oracle for the bridge's HTTP client. -/
structure Gateway where
  post : String → Json → HttpResult
  get : String → HttpResult

/-- Lines 151-160: the generic except block, producing the -32603
internal-error envelope with the message embedding str(e). -/
def mk_internal_error (m : String) (idv : Json) : Json :=
  Json.obj [("jsonrpc", Json.str "2.0"),
    ("error", Json.obj [("code", Json.num (-32603)),
      ("message", Json.str ("Internal error: " ++ m))]),
    ("id", idv)]

/-- Lines 140-150: the httpx.HTTPStatusError except block, producing the
-32603 envelope whose message embeds the status code and whose data
carries the response body text. -/
def mk_remote_error (status : Nat) (text : String) (idv : Json) : Json :=
  Json.obj [("jsonrpc", Json.str "2.0"),
    ("error", Json.obj [("code", Json.num (-32603)),
      ("message", Json.str ("Remote server error: " ++ toString status)),
      ("data", Json.str text)]),
    ("id", idv)]

/-- Lines 112-160 of _forward_to_remote, applied to the outcome of the
outbound call: raise_for_status (httpx treats any status outside 200-299
as an error), response.json(), the jsonrpc-membership check, the
tools/call content wrapping or the plain result wrapping, and the two
except blocks that turn HTTPStatusError and any other exception into
JSON-RPC error envelopes. -/
def handle_response (msg : List (String × Json)) (res : HttpResult) : Json :=
  match res with
  | HttpResult.exc m => mk_internal_error m (py_get msg "id")
  | HttpResult.ok r =>
    if 200 ≤ r.status ∧ r.status < 300 then
      match r.jsonBody with
      | Except.error m => mk_internal_error m (py_get msg "id")
      | Except.ok result =>
        match not_in_jsonrpc result with
        | Except.error m => mk_internal_error m (py_get msg "id")
        | Except.ok true =>
          if is_method msg "tools/call" then
            Json.obj [("jsonrpc", Json.str "2.0"),
              ("result", Json.obj [("content", Json.arr [Json.obj
                [("type", Json.str "text"),
                 ("text", Json.str (py_text_wrap result))]])]),
              ("id", py_get msg "id")]
          else
            Json.obj [("jsonrpc", Json.str "2.0"),
              ("result", result),
              ("id", py_get msg "id")]
        | Except.ok false => result
    else
      mk_remote_error r.status r.text (py_get msg "id")

/-- Lines 80-160, _forward_to_remote, together with the list of HTTP calls
it performs.  For tools/call, message["params"]["name"] is evaluated first
(KeyError when params or name is missing, TypeError when params is not a
dict), then message["params"].get("arguments", ...) with a dict default,
then the chroma underscore prefix test (AttributeError when the name is
not a string); a recognized name is POSTed to /tools/...name with the
arguments as body, an unrecognized one yields the -32601 envelope with no
call.  Any other method is POSTed as-is to /mcp. -/
def forward_to_remote (base : String) (gw : Gateway) (msg : List (String × Json)) :
    Json × List HttpCall :=
  if is_method msg "tools/call" then
    match List.lookup "params" msg with
    | none => (mk_internal_error (key_error_str "params") (py_get msg "id"), [])
    | some (Json.obj pkvs) =>
      match List.lookup "name" pkvs with
      | none => (mk_internal_error (key_error_str "name") (py_get msg "id"), [])
      | some namev =>
        let tool_args := (List.lookup "arguments" pkvs).getD (Json.obj [])
        match namev with
        | Json.str tool_name =>
          if starts_with tool_name "chroma_" then
            let url := base ++ "/tools/" ++ tool_name
            (handle_response msg (gw.post url tool_args), [HttpCall.post url tool_args])
          else
            (Json.obj [("jsonrpc", Json.str "2.0"),
              ("error", Json.obj [("code", Json.num (-32601)),
                ("message", Json.str ("Unknown tool: " ++ tool_name))]),
              ("id", py_get msg "id")], [])
        | other =>
          (mk_internal_error
            ("\x27" ++ py_type_name other ++ "\x27 object has no attribute \x27startswith\x27")
            (py_get msg "id"), [])
    | some params => (mk_internal_error (subscript_error_str params) (py_get msg "id"), [])
  else
    let url := base ++ "/mcp"
    (handle_response msg (gw.post url (Json.obj msg)), [HttpCall.post url (Json.obj msg)])

/-- Lines 227-330, _get_default_tools: the hardcoded catalog of the eight
baseline Chroma tools, transcribed field for field. -/
def get_default_tools : Json :=
  Json.arr [
    Json.obj [("name", Json.str "chroma_list_collections"),
      ("description", Json.str "List all collections in ChromaDB"),
      ("inputSchema", Json.obj [("type", Json.str "object"),
        ("properties", Json.obj []),
        ("required", Json.arr [])])],
    Json.obj [("name", Json.str "chroma_create_collection"),
      ("description", Json.str "Create a new collection in ChromaDB"),
      ("inputSchema", Json.obj [("type", Json.str "object"),
        ("properties", Json.obj [
          ("collection_name", Json.obj [("type", Json.str "string")]),
          ("embedding_function_name", Json.obj [("type", Json.str "string")]),
          ("metadata", Json.obj [("type", Json.str "object")])]),
        ("required", Json.arr [Json.str "collection_name"])])],
    Json.obj [("name", Json.str "chroma_get_collection"),
      ("description", Json.str "Get details about a specific collection"),
      ("inputSchema", Json.obj [("type", Json.str "object"),
        ("properties", Json.obj [
          ("collection_name", Json.obj [("type", Json.str "string")])]),
        ("required", Json.arr [Json.str "collection_name"])])],
    Json.obj [("name", Json.str "chroma_delete_collection"),
      ("description", Json.str "Delete a collection from ChromaDB"),
      ("inputSchema", Json.obj [("type", Json.str "object"),
        ("properties", Json.obj [
          ("collection_name", Json.obj [("type", Json.str "string")])]),
        ("required", Json.arr [Json.str "collection_name"])])],
    Json.obj [("name", Json.str "chroma_add_documents"),
      ("description", Json.str "Add documents to a collection"),
      ("inputSchema", Json.obj [("type", Json.str "object"),
        ("properties", Json.obj [
          ("collection_name", Json.obj [("type", Json.str "string")]),
          ("documents", Json.obj [("type", Json.str "array"),
            ("items", Json.obj [("type", Json.str "string")])]),
          ("ids", Json.obj [("type", Json.str "array"),
            ("items", Json.obj [("type", Json.str "string")])]),
          ("metadatas", Json.obj [("type", Json.str "array"),
            ("items", Json.obj [("type", Json.str "object")])])]),
        ("required", Json.arr [Json.str "collection_name", Json.str "documents"])])],
    Json.obj [("name", Json.str "chroma_query_collection"),
      ("description", Json.str "Query documents in a collection"),
      ("inputSchema", Json.obj [("type", Json.str "object"),
        ("properties", Json.obj [
          ("collection_name", Json.obj [("type", Json.str "string")]),
          ("query_texts", Json.obj [("type", Json.str "array"),
            ("items", Json.obj [("type", Json.str "string")])]),
          ("n_results", Json.obj [("type", Json.str "integer")]),
          ("where", Json.obj [("type", Json.str "object")]),
          ("where_document", Json.obj [("type", Json.str "object")])]),
        ("required", Json.arr [Json.str "collection_name", Json.str "query_texts"])])],
    Json.obj [("name", Json.str "chroma_update_documents"),
      ("description", Json.str "Update documents in a collection"),
      ("inputSchema", Json.obj [("type", Json.str "object"),
        ("properties", Json.obj [
          ("collection_name", Json.obj [("type", Json.str "string")]),
          ("ids", Json.obj [("type", Json.str "array"),
            ("items", Json.obj [("type", Json.str "string")])]),
          ("documents", Json.obj [("type", Json.str "array"),
            ("items", Json.obj [("type", Json.str "string")])]),
          ("metadatas", Json.obj [("type", Json.str "array"),
            ("items", Json.obj [("type", Json.str "object")])])]),
        ("required", Json.arr [Json.str "collection_name", Json.str "ids"])])],
    Json.obj [("name", Json.str "chroma_delete_documents"),
      ("description", Json.str "Delete documents from a collection"),
      ("inputSchema", Json.obj [("type", Json.str "object"),
        ("properties", Json.obj [
          ("collection_name", Json.obj [("type", Json.str "string")]),
          ("ids", Json.obj [("type", Json.str "array"),
            ("items", Json.obj [("type", Json.str "string")])]),
          ("where", Json.obj [("type", Json.str "object")])]),
        ("required", Json.arr [Json.str "collection_name"])])]]

/-- Lines 206-225, _get_remote_tools: GET /tools on the gateway; on a 2xx
JSON response that is a dict with a tools key, return that key's value
(whatever it is); on a bare list, return it; on any other body shape, and
on every failure (exception, non-2xx status via raise_for_status, or a
body that response.json() cannot decode), fall back to the hardcoded
default catalog.  The value returned is whatever tools_data["tools"] held,
not necessarily a list, exactly as in the source. -/
def get_remote_tools (base : String) (gw : Gateway) : Json × List HttpCall :=
  let url := base ++ "/tools"
  match gw.get url with
  | HttpResult.exc _ => (get_default_tools, [HttpCall.get url])
  | HttpResult.ok r =>
    if 200 ≤ r.status ∧ r.status < 300 then
      match r.jsonBody with
      | Except.error _ => (get_default_tools, [HttpCall.get url])
      | Except.ok tools_data =>
        match tools_data with
        | Json.obj kvs =>
          match List.lookup "tools" kvs with
          | some v => (v, [HttpCall.get url])
          | none => (get_default_tools, [HttpCall.get url])
        | Json.arr xs => (Json.arr xs, [HttpCall.get url])
        | _ => (get_default_tools, [HttpCall.get url])
    else (get_default_tools, [HttpCall.get url])

/-- The loop body of _process_messages (lines 174-202) for one dict
message: initialize is answered locally (message.get("params", dict())
followed by .get("protocolVersion", "2024-11-05"), which raises
AttributeError when params is present but not a dict - the none result
models that exception escaping to the loop's except handler, which ends
the loop without a response); tools/list is answered from
_get_remote_tools; everything else goes through _forward_to_remote.  The
first component is the response written to stdout (none when the
exception escapes), the second the HTTP calls performed. -/
def handle_message (base : String) (gw : Gateway) (msg : List (String × Json)) :
    Option Json × List HttpCall :=
  if is_method msg "initialize" then
    match (List.lookup "params" msg).getD (Json.obj []) with
    | Json.obj pkvs =>
      (some (Json.obj [("jsonrpc", Json.str "2.0"),
        ("result", Json.obj [
          ("protocolVersion", (List.lookup "protocolVersion" pkvs).getD (Json.str "2024-11-05")),
          ("capabilities", Json.obj [("tools", Json.obj [])]),
          ("serverInfo", Json.obj [("name", Json.str "mcp-chroma-bridge"),
            ("version", Json.str "1.0.0")])]),
        ("id", py_get msg "id")]), [])
    | _ => (none, [])
  else if is_method msg "tools/list" then
    match get_remote_tools base gw with
    | (tools, calls) =>
      (some (Json.obj [("jsonrpc", Json.str "2.0"),
        ("result", Json.obj [("tools", tools)]),
        ("id", py_get msg "id")]), calls)
  else
    match forward_to_remote base gw msg with
    | (resp, calls) => (some resp, calls)

/-- One line arriving on stdin, abstracted by the outcome of json.loads:
either the line fails to decode, or it decodes to a JSON value. -/
inductive Line where
  | malformed
  | valid (j : Json)

/-- Lines 67-78, _read_message: a decode failure is logged and none is
returned; a line whose JSON value is null also yields Python None (the
same object the error path returns), so both are none here. -/
def read_message : Line → Option Json
  | Line.malformed => none
  | Line.valid Json.null => none
  | Line.valid j => some j

/-- Lines 162-204, _process_messages, driven by the list of stdin lines
(end of list = end of stream).  A none from read_message breaks the loop;
a non-dict message makes message.get("method") raise AttributeError,
which the surrounding except catches, ending the loop; a dict message is
handled and its response written, unless the handler let an exception
escape (handle_message returning none), which also ends the loop.
Returns the responses written to stdout in order and the HTTP calls
performed in order. -/
def process_messages (base : String) (gw : Gateway) : List Line → List Json × List HttpCall
  | [] => ([], [])
  | l :: rest =>
    match read_message l with
    | none => ([], [])
    | some (Json.obj kvs) =>
      match handle_message base gw kvs with
      | (some resp, calls) =>
        match process_messages base gw rest with
        | (outs, more) => (resp :: outs, calls ++ more)
      | (none, calls) => ([], calls)
    | some _ => ([], [])

/-! Concrete fixtures used by witnesses and counterexamples. -/

/-- Gateway whose every request raises a connection error. -/
def gw_unreachable : Gateway :=
  ⟨fun _ _ => HttpResult.exc "connection refused", fun _ => HttpResult.exc "connection refused"⟩

/-- Gateway answering every POST with HTTP 500 and the body text used in
the specification scenario. -/
def gw_status500 : Gateway :=
  ⟨fun _ _ => HttpResult.ok ⟨500, "collection not found", Except.error "decode failed"⟩,
   fun _ => HttpResult.exc "connection refused"⟩

/-- Gateway answering every POST with HTTP 200 and the JSON body 5. -/
def gw_body_num : Gateway :=
  ⟨fun _ _ => HttpResult.ok ⟨200, "5", Except.ok (Json.num 5)⟩,
   fun _ => HttpResult.exc "connection refused"⟩

/-- Gateway answering every POST with HTTP 200 and a JSON object body
without a jsonrpc key. -/
def gw_body_obj : Gateway :=
  ⟨fun _ _ => HttpResult.ok ⟨200, "\x7b\"ok\": true\x7d",
     Except.ok (Json.obj [("ok", Json.bool true)])⟩,
   fun _ => HttpResult.exc "connection refused"⟩

/-- Gateway whose GET /tools returns 200 with a dict whose tools key holds
the number 5 rather than a list. -/
def gw_tools_num : Gateway :=
  ⟨fun _ _ => HttpResult.exc "connection refused",
   fun _ => HttpResult.ok ⟨200, "\x7b\"tools\": 5\x7d",
     Except.ok (Json.obj [("tools", Json.num 5)])⟩⟩

/-- A well-formed tools/call request for a recognized chroma tool. -/
def msg_call : List (String × Json) :=
  [("jsonrpc", Json.str "2.0"), ("method", Json.str "tools/call"),
   ("params", Json.obj [("name", Json.str "chroma_list_collections"),
     ("arguments", Json.obj [])]),
   ("id", Json.num 3)]

/-- A tools/call request whose tool name lacks the chroma prefix. -/
def msg_call_unknown : List (String × Json) :=
  [("jsonrpc", Json.str "2.0"), ("method", Json.str "tools/call"),
   ("params", Json.obj [("name", Json.str "other_tool"), ("arguments", Json.obj [])]),
   ("id", Json.num 4)]

/-- An initialize request carrying a protocol version. -/
def msg_init : List (String × Json) :=
  [("jsonrpc", Json.str "2.0"), ("method", Json.str "initialize"),
   ("params", Json.obj [("protocolVersion", Json.str "0.1.0")]),
   ("id", Json.num 1)]

/-- A tools/list request. -/
def msg_tools_list : List (String × Json) :=
  [("jsonrpc", Json.str "2.0"), ("method", Json.str "tools/list"), ("id", Json.num 2)]

/-- A resources/list request. -/
def msg_resources : List (String × Json) :=
  [("jsonrpc", Json.str "2.0"), ("method", Json.str "resources/list"), ("id", Json.num 1)]

/-- A tools/call request with no params member. -/
def msg_no_params : List (String × Json) :=
  [("method", Json.str "tools/call"), ("id", Json.num 9)]

/-- A tools/call request whose params lacks the name key. -/
def msg_no_name : List (String × Json) :=
  [("method", Json.str "tools/call"), ("params", Json.obj [("arguments", Json.obj [])]),
   ("id", Json.num 9)]

/-- Field access on a JSON object, none on any other value. -/
def j_get : Json → String → Option Json
  | Json.obj kvs, k => List.lookup k kvs
  | _, _ => none

/-- C1: for every inbound tools/call request whose params.name starts with
the recognized prefix chroma underscore, the bridge issues exactly one
HTTP POST to base/tools/name whose JSON body equals params.arguments. -/
theorem c1_tool_call_posts_once (base : String) (gw : Gateway)
    (msg pkvs : List (String × Json)) (name : String) (args : Json)
    (hmethod : List.lookup "method" msg = some (Json.str "tools/call"))
    (hparams : List.lookup "params" msg = some (Json.obj pkvs))
    (hname : List.lookup "name" pkvs = some (Json.str name))
    (hpre : starts_with name "chroma_" = true)
    (hargs : List.lookup "arguments" pkvs = some args) :
    (handle_message base gw msg).2 = [HttpCall.post (base ++ "/tools/" ++ name) args] := by
  simp only [handle_message, is_method, hmethod, forward_to_remote, hparams, hname, hargs,
    hpre, Option.getD_some]
  simp

/-- Witness for C1 at a concrete request and gateway. -/
theorem c1_witness :
    (handle_message "http://r" gw_unreachable msg_call).2 =
      [HttpCall.post "http://r/tools/chroma_list_collections" (Json.obj [])] :=
  c1_tool_call_posts_once "http://r" gw_unreachable msg_call
    [("name", Json.str "chroma_list_collections"), ("arguments", Json.obj [])]
    "chroma_list_collections" (Json.obj []) rfl rfl rfl rfl rfl

/-- C2: for every inbound tools/call request whose params.name does not
start with the recognized prefix, the bridge responds with the JSON-RPC
error envelope of code -32601 carrying the originating id, and performs no
HTTP call. -/
theorem c2_unknown_tool_rejected_locally (base : String) (gw : Gateway)
    (msg pkvs : List (String × Json)) (name : String)
    (hmethod : List.lookup "method" msg = some (Json.str "tools/call"))
    (hparams : List.lookup "params" msg = some (Json.obj pkvs))
    (hname : List.lookup "name" pkvs = some (Json.str name))
    (hpre : starts_with name "chroma_" = false) :
    handle_message base gw msg =
      (some (Json.obj [("jsonrpc", Json.str "2.0"),
        ("error", Json.obj [("code", Json.num (-32601)),
          ("message", Json.str ("Unknown tool: " ++ name))]),
        ("id", py_get msg "id")]), []) := by
  simp only [handle_message, is_method, hmethod, forward_to_remote, hparams, hname, hpre]
  simp

/-- Witness for C2 at a concrete request with tool name other_tool. -/
theorem c2_witness :
    handle_message "http://r" gw_unreachable msg_call_unknown =
      (some (Json.obj [("jsonrpc", Json.str "2.0"),
        ("error", Json.obj [("code", Json.num (-32601)),
          ("message", Json.str "Unknown tool: other_tool")]),
        ("id", Json.num 4)]), []) :=
  c2_unknown_tool_rejected_locally "http://r" gw_unreachable msg_call_unknown
    [("name", Json.str "other_tool"), ("arguments", Json.obj [])]
    "other_tool" rfl rfl rfl rfl

/-- C4: for every forwarded request to which the gateway replies with a
non-2xx status, the bridge writes the JSON-RPC error envelope of code
-32603 whose message embeds the status code, whose data carries the
response body text, and whose id is the originating request id.  The
first conjunct settles the translation of a non-2xx reply for any message
(the except block of lines 140-150, shared by both forwarding paths); the
second instantiates it on the generic forwarding path, a POST of the full
message to base/mcp for every non-tools/call method; the third on the
tool-call path, a POST to base/tools/name for a chroma-prefixed name. -/
theorem c4_remote_http_error (base : String) (gw : Gateway)
    (msg : List (String × Json)) (r : HttpResp)
    (hstatus : ¬ (200 ≤ r.status ∧ r.status < 300)) :
    handle_response msg (HttpResult.ok r) =
      Json.obj [("jsonrpc", Json.str "2.0"),
        ("error", Json.obj [("code", Json.num (-32603)),
          ("message", Json.str ("Remote server error: " ++ toString r.status)),
          ("data", Json.str r.text)]),
        ("id", py_get msg "id")]
    ∧ (is_method msg "tools/call" = false →
        gw.post (base ++ "/mcp") (Json.obj msg) = HttpResult.ok r →
        forward_to_remote base gw msg =
          (Json.obj [("jsonrpc", Json.str "2.0"),
            ("error", Json.obj [("code", Json.num (-32603)),
              ("message", Json.str ("Remote server error: " ++ toString r.status)),
              ("data", Json.str r.text)]),
            ("id", py_get msg "id")],
           [HttpCall.post (base ++ "/mcp") (Json.obj msg)]))
    ∧ (∀ pkvs name,
        List.lookup "method" msg = some (Json.str "tools/call") →
        List.lookup "params" msg = some (Json.obj pkvs) →
        List.lookup "name" pkvs = some (Json.str name) →
        starts_with name "chroma_" = true →
        gw.post (base ++ "/tools/" ++ name)
          ((List.lookup "arguments" pkvs).getD (Json.obj [])) = HttpResult.ok r →
        handle_message base gw msg =
          (some (Json.obj [("jsonrpc", Json.str "2.0"),
            ("error", Json.obj [("code", Json.num (-32603)),
              ("message", Json.str ("Remote server error: " ++ toString r.status)),
              ("data", Json.str r.text)]),
            ("id", py_get msg "id")]),
           [HttpCall.post (base ++ "/tools/" ++ name)
             ((List.lookup "arguments" pkvs).getD (Json.obj []))])) := by
  have h1 : handle_response msg (HttpResult.ok r) =
      Json.obj [("jsonrpc", Json.str "2.0"),
        ("error", Json.obj [("code", Json.num (-32603)),
          ("message", Json.str ("Remote server error: " ++ toString r.status)),
          ("data", Json.str r.text)]),
        ("id", py_get msg "id")] := by
    simp [handle_response, hstatus, mk_remote_error]
  refine ⟨h1, ?_, ?_⟩
  · intro hm hpost
    simp only [forward_to_remote, hm, Bool.false_eq_true, if_false, hpost, h1]
  · intro pkvs name hmethod hparams hname hpre hpost
    simp only [handle_message, is_method, hmethod, forward_to_remote, hparams, hname, hpre,
      hpost, h1]
    simp

/-- Witness for C4: the specification scenario, HTTP 500 with body text
collection not found, at a concrete tools/call with id 3. -/
theorem c4_witness :
    handle_message "http://r" gw_status500 msg_call =
      (some (Json.obj [("jsonrpc", Json.str "2.0"),
        ("error", Json.obj [("code", Json.num (-32603)),
          ("message", Json.str "Remote server error: 500"),
          ("data", Json.str "collection not found")]),
        ("id", Json.num 3)]),
       [HttpCall.post "http://r/tools/chroma_list_collections" (Json.obj [])]) :=
  (c4_remote_http_error "http://r" gw_status500 msg_call
    ⟨500, "collection not found", Except.error "decode failed"⟩ (by decide)).2.2
    [("name", Json.str "chroma_list_collections"), ("arguments", Json.obj [])]
    "chroma_list_collections" rfl rfl rfl rfl rfl

/-- C6: every initialize request (with params absent or an object, as in
well-formed JSON-RPC) is answered locally with no HTTP call; the result
echoes params.protocolVersion when present, defaulting to 2024-11-05, and
declares tools capability; the id is the originating id. -/
theorem c6_initialize_local (base : String) (gw : Gateway)
    (msg : List (String × Json))
    (hmethod : List.lookup "method" msg = some (Json.str "initialize")) :
    (List.lookup "params" msg = none →
      handle_message base gw msg =
        (some (Json.obj [("jsonrpc", Json.str "2.0"),
          ("result", Json.obj [
            ("protocolVersion", Json.str "2024-11-05"),
            ("capabilities", Json.obj [("tools", Json.obj [])]),
            ("serverInfo", Json.obj [("name", Json.str "mcp-chroma-bridge"),
              ("version", Json.str "1.0.0")])]),
          ("id", py_get msg "id")]), []))
    ∧ (∀ pkvs, List.lookup "params" msg = some (Json.obj pkvs) →
      handle_message base gw msg =
        (some (Json.obj [("jsonrpc", Json.str "2.0"),
          ("result", Json.obj [
            ("protocolVersion",
              (List.lookup "protocolVersion" pkvs).getD (Json.str "2024-11-05")),
            ("capabilities", Json.obj [("tools", Json.obj [])]),
            ("serverInfo", Json.obj [("name", Json.str "mcp-chroma-bridge"),
              ("version", Json.str "1.0.0")])]),
          ("id", py_get msg "id")]), [])) := by
  constructor
  · intro hparams
    simp only [handle_message, is_method, hmethod, hparams]
    simp
  · intro pkvs hparams
    simp only [handle_message, is_method, hmethod, hparams]
    simp

/-- Witness for C6 at a concrete initialize request carrying protocol
version 0.1.0. -/
theorem c6_witness :
    handle_message "http://r" gw_unreachable msg_init =
      (some (Json.obj [("jsonrpc", Json.str "2.0"),
        ("result", Json.obj [
          ("protocolVersion", Json.str "0.1.0"),
          ("capabilities", Json.obj [("tools", Json.obj [])]),
          ("serverInfo", Json.obj [("name", Json.str "mcp-chroma-bridge"),
            ("version", Json.str "1.0.0")])]),
        ("id", Json.num 1)]), []) :=
  (c6_initialize_local "http://r" gw_unreachable msg_init rfl).2
    [("protocolVersion", Json.str "0.1.0")] rfl

/-- C10: a tools/call whose params is absent, or whose params object lacks
the name key, does not crash the bridge: the KeyError is converted to the
-32603 envelope whose message embeds the exception text (the quoted key),
carrying the originating id (null when absent), and the processing loop
goes on to read further input. -/
theorem c10_keyerror_handled (base : String) (gw : Gateway)
    (msg : List (String × Json))
    (hmethod : List.lookup "method" msg = some (Json.str "tools/call")) :
    (List.lookup "params" msg = none →
      handle_message base gw msg =
        (some (mk_internal_error (key_error_str "params") (py_get msg "id")), [])
      ∧ ∀ rest, process_messages base gw (Line.valid (Json.obj msg) :: rest) =
          (mk_internal_error (key_error_str "params") (py_get msg "id") ::
            (process_messages base gw rest).1,
           (process_messages base gw rest).2))
    ∧ (∀ pkvs, List.lookup "params" msg = some (Json.obj pkvs) →
      List.lookup "name" pkvs = none →
      handle_message base gw msg =
        (some (mk_internal_error (key_error_str "name") (py_get msg "id")), [])
      ∧ ∀ rest, process_messages base gw (Line.valid (Json.obj msg) :: rest) =
          (mk_internal_error (key_error_str "name") (py_get msg "id") ::
            (process_messages base gw rest).1,
           (process_messages base gw rest).2)) := by
  constructor
  · intro hparams
    have hh : handle_message base gw msg =
        (some (mk_internal_error (key_error_str "params") (py_get msg "id")), []) := by
      simp only [handle_message, is_method, hmethod, forward_to_remote, hparams]
      simp
    refine ⟨hh, fun rest => ?_⟩
    simp only [process_messages, read_message, hh]
    obtain ⟨outs, more⟩ := process_messages base gw rest
    simp
  · intro pkvs hparams hname
    have hh : handle_message base gw msg =
        (some (mk_internal_error (key_error_str "name") (py_get msg "id")), []) := by
      simp only [handle_message, is_method, hmethod, forward_to_remote, hparams, hname]
      simp
    refine ⟨hh, fun rest => ?_⟩
    simp only [process_messages, read_message, hh]
    obtain ⟨outs, more⟩ := process_messages base gw rest
    simp

/-- Witness for C10 at a tools/call with no params member. -/
theorem c10_witness :
    handle_message "http://r" gw_unreachable msg_no_params =
      (some (mk_internal_error (key_error_str "params") (Json.num 9)), []) :=
  ((c10_keyerror_handled "http://r" gw_unreachable msg_no_params rfl).1 rfl).1

/-- C3 counterexample: after a malformed stdin line the bridge does not
remain alive.  A malformed line followed by a valid initialize request
produces no output at all (the loop exits, treating the parse failure like
end-of-input), whereas the same valid request alone is answered. -/
theorem c3_counterexample :
    process_messages "http://r" gw_unreachable
      [Line.malformed, Line.valid (Json.obj msg_init)] = ([], [])
    ∧ (process_messages "http://r" gw_unreachable
      [Line.valid (Json.obj msg_init)]).1.length = 1 :=
  ⟨rfl, rfl⟩

/-- C3 as amended: a line that fails to parse as JSON is logged and
dropped and no response is ever sent for it (in particular the same
malformed line twice is never answered), but the bridge does not remain
alive: read underscore message returns the same None as end-of-stream, so
the processing loop exits at once and subsequent lines, valid or not, are
not processed, with no HTTP call made. -/
theorem c3_amended_malformed_ends_loop (base : String) (gw : Gateway)
    (rest : List Line) :
    process_messages base gw (Line.malformed :: rest) = ([], []) :=
  rfl

/-- C5 counterexample: a 2xx gateway body that is the JSON number 5 lacks
a jsonrpc key, yet the bridge does not wrap it as tool-call content: the
Python membership test ("jsonrpc" not in 5) raises TypeError, so the
response is the -32603 internal-error envelope and has no result member at
all. -/
theorem c5_counterexample :
    (handle_message "http://r" gw_body_num msg_call =
      (some (mk_internal_error "argument of type \x27int\x27 is not iterable" (Json.num 3)),
       [HttpCall.post "http://r/tools/chroma_list_collections" (Json.obj [])]))
    ∧ j_get ((handle_message "http://r" gw_body_num msg_call).1.getD Json.null) "result" = none :=
  ⟨rfl, rfl⟩

/-- C5 as amended: the content wrapping holds exactly when the Python
membership test succeeds and reports the key absent, i.e. when the 2xx
body is an object without a jsonrpc key, a list without the string
jsonrpc among its elements, or a string not containing jsonrpc as a
substring: then the tools/call response wraps the body as a single text
content element whose text is the body itself when the body is a string
and its JSON serialization otherwise, carrying the originating id (a
numeric, boolean or null body instead raises TypeError and yields the
-32603 internal-error envelope). -/
theorem c5_amended_content_wrap (base : String) (gw : Gateway)
    (msg pkvs : List (String × Json)) (name : String) (args : Json)
    (r : HttpResp) (j : Json)
    (hmethod : List.lookup "method" msg = some (Json.str "tools/call"))
    (hparams : List.lookup "params" msg = some (Json.obj pkvs))
    (hname : List.lookup "name" pkvs = some (Json.str name))
    (hpre : starts_with name "chroma_" = true)
    (hargs : List.lookup "arguments" pkvs = some args)
    (hpost : gw.post (base ++ "/tools/" ++ name) args = HttpResult.ok r)
    (hstatus : 200 ≤ r.status ∧ r.status < 300)
    (hbody : r.jsonBody = Except.ok j)
    (hnotin : not_in_jsonrpc j = Except.ok true) :
    handle_message base gw msg =
      (some (Json.obj [("jsonrpc", Json.str "2.0"),
        ("result", Json.obj [("content", Json.arr [Json.obj
          [("type", Json.str "text"),
           ("text", Json.str (py_text_wrap j))]])]),
        ("id", py_get msg "id")]),
       [HttpCall.post (base ++ "/tools/" ++ name) args]) := by
  simp only [handle_message, is_method, hmethod, forward_to_remote, hparams, hname, hargs,
    Option.getD_some, hpre, handle_response, hpost, hbody, hnotin]
  simp [hstatus, hmethod]

/-- Witness for the amended C5 at a 200 response whose body is an object
without a jsonrpc key. -/
theorem c5_witness :
    handle_message "http://r" gw_body_obj msg_call =
      (some (Json.obj [("jsonrpc", Json.str "2.0"),
        ("result", Json.obj [("content", Json.arr [Json.obj
          [("type", Json.str "text"),
           ("text", Json.str "\x7b\"ok\": true\x7d")]])]),
        ("id", Json.num 3)]),
       [HttpCall.post "http://r/tools/chroma_list_collections" (Json.obj [])]) :=
  c5_amended_content_wrap "http://r" gw_body_obj msg_call
    [("name", Json.str "chroma_list_collections"), ("arguments", Json.obj [])]
    "chroma_list_collections" (Json.obj [])
    ⟨200, "\x7b\"ok\": true\x7d", Except.ok (Json.obj [("ok", Json.bool true)])⟩
    (Json.obj [("ok", Json.bool true)])
    rfl rfl rfl rfl rfl rfl (by decide) rfl rfl

/-- Condition under which lines 206-225 fall back to the default catalog:
the GET raises, the status is not 2xx, the body does not decode as JSON,
or the decoded body is neither a dict with a tools key nor a bare list. -/
def tools_fetch_falls_back (base : String) (gw : Gateway) : Bool :=
  match gw.get (base ++ "/tools") with
  | HttpResult.exc _ => true
  | HttpResult.ok r =>
    if 200 ≤ r.status ∧ r.status < 300 then
      match r.jsonBody with
      | Except.error _ => true
      | Except.ok (Json.obj kvs) => (List.lookup "tools" kvs).isNone
      | Except.ok (Json.arr _) => false
      | Except.ok _ => true
    else true

/-- C7 counterexample: a 200 body that is a dict whose tools member is the
number 5 is not a dict containing a tools list, yet the bridge does not
fall back to the default catalog: the source only tests key presence, so
it returns the number 5 as the tool list. -/
theorem c7_counterexample :
    (get_remote_tools "http://r" gw_tools_num).1 = Json.num 5
    ∧ Json.num 5 ≠ get_default_tools
    ∧ (handle_message "http://r" gw_tools_num msg_tools_list).1 =
        some (Json.obj [("jsonrpc", Json.str "2.0"),
          ("result", Json.obj [("tools", Json.num 5)]),
          ("id", Json.num 2)]) :=
  ⟨rfl, fun h => Json.noConfusion h, rfl⟩

/-- C7 as amended: whenever fetching the catalog fails (gateway
unreachable, non-2xx status, undecodable body) or the decoded body is
neither a dict containing a tools key (regardless of that value's shape)
nor a bare list, the tools/list response carries the hardcoded default
catalog of the eight chroma tools, not an error. -/
theorem c7_amended_default_fallback (base : String) (gw : Gateway)
    (msg : List (String × Json))
    (hmethod : List.lookup "method" msg = some (Json.str "tools/list"))
    (hfb : tools_fetch_falls_back base gw = true) :
    handle_message base gw msg =
      (some (Json.obj [("jsonrpc", Json.str "2.0"),
        ("result", Json.obj [("tools", get_default_tools)]),
        ("id", py_get msg "id")]),
       [HttpCall.get (base ++ "/tools")]) := by
  have hg : get_remote_tools base gw = (get_default_tools, [HttpCall.get (base ++ "/tools")]) := by
    simp only [get_remote_tools]
    unfold tools_fetch_falls_back at hfb
    cases hcall : gw.get (base ++ "/tools") with
    | exc m => simp
    | ok r =>
      rw [hcall] at hfb
      dsimp only at hfb ⊢
      by_cases hs : 200 ≤ r.status ∧ r.status < 300
      · rw [if_pos hs] at hfb
        rw [if_pos hs]
        cases hb : r.jsonBody with
        | error m => simp
        | ok td =>
          rw [hb] at hfb
          cases td with
          | obj kvs =>
            simp only [Option.isNone_iff_eq_none] at hfb
            simp [hfb]
          | arr xs => simp at hfb
          | null => simp
          | bool b => simp
          | num n => simp
          | str s => simp
      · rw [if_neg hs]
  simp only [handle_message, is_method, hmethod, hg]
  simp

/-- Witness for the amended C7 with an unreachable gateway. -/
theorem c7_witness :
    handle_message "http://r" gw_unreachable msg_tools_list =
      (some (Json.obj [("jsonrpc", Json.str "2.0"),
        ("result", Json.obj [("tools", get_default_tools)]),
        ("id", Json.num 2)]),
       [HttpCall.get "http://r/tools"]) :=
  c7_amended_default_fallback "http://r" gw_unreachable msg_tools_list rfl rfl

/-- C8 counterexample: a resources/list request is not answered locally:
the bridge performs an HTTP POST of the whole message to the gateway's mcp
endpoint, contradicting the claim that no HTTP contact occurs. -/
theorem c8_counterexample :
    (handle_message "http://r" gw_unreachable msg_resources).2 =
      [HttpCall.post "http://r/mcp" (Json.obj msg_resources)]
    ∧ (handle_message "http://r" gw_unreachable msg_resources).2 ≠ [] :=
  ⟨rfl, fun h => List.noConfusion h⟩

/-- C8 as amended: the bridge has no local handling for
notifications/initialized, resources/list or prompts/list; each such
message is forwarded as exactly one HTTP POST of the full message to the
gateway's mcp endpoint (where, in this repository, the gateway's HTTP
server is what answers them with an empty body or empty sequences), and
the bridge's response is the normalization of whatever the gateway
returned. -/
theorem c8_amended_forwarded_to_mcp (base : String) (gw : Gateway)
    (msg : List (String × Json))
    (h : List.lookup "method" msg = some (Json.str "notifications/initialized")
      ∨ List.lookup "method" msg = some (Json.str "resources/list")
      ∨ List.lookup "method" msg = some (Json.str "prompts/list")) :
    handle_message base gw msg =
      (some (handle_response msg (gw.post (base ++ "/mcp") (Json.obj msg))),
       [HttpCall.post (base ++ "/mcp") (Json.obj msg)]) := by
  rcases h with h | h | h <;>
  · simp only [handle_message, is_method, h, forward_to_remote]
    simp

/-- Witness for the amended C8 at a concrete resources/list request. -/
theorem c8_witness :
    handle_message "http://r" gw_unreachable msg_resources =
      (some (handle_response msg_resources
        (Gateway.post gw_unreachable "http://r/mcp" (Json.obj msg_resources))),
       [HttpCall.post "http://r/mcp" (Json.obj msg_resources)]) :=
  c8_amended_forwarded_to_mcp "http://r" gw_unreachable msg_resources (Or.inr (Or.inl rfl))

/-- C9 counterexample: two consecutive tools/list requests in one session
produce two GET fetches of the catalog; nothing is cached. -/
theorem c9_counterexample :
    (process_messages "http://r" gw_unreachable
      [Line.valid (Json.obj msg_tools_list), Line.valid (Json.obj msg_tools_list)]).2 =
      [HttpCall.get "http://r/tools", HttpCall.get "http://r/tools"] :=
  rfl

/-- C9 as amended: the tool catalog is never cached: every tools/list
request triggers exactly one fresh GET of the gateway's tools endpoint,
and the response is computed from that fetch alone. -/
theorem c9_amended_fetch_every_time (base : String) (gw : Gateway)
    (msg : List (String × Json))
    (hmethod : List.lookup "method" msg = some (Json.str "tools/list")) :
    (handle_message base gw msg).2 = [HttpCall.get (base ++ "/tools")] := by
  have hg : (get_remote_tools base gw).2 = [HttpCall.get (base ++ "/tools")] := by
    simp only [get_remote_tools]
    cases gw.get (base ++ "/tools") with
    | exc m => simp
    | ok r =>
      dsimp only
      by_cases hs : 200 ≤ r.status ∧ r.status < 300
      · rw [if_pos hs]
        cases r.jsonBody with
        | error m => simp
        | ok td =>
          cases td with
          | obj kvs =>
            cases hlk : List.lookup "tools" kvs with
            | none => simp [hlk]
            | some v => simp [hlk]
          | arr xs => simp
          | null => simp
          | bool b => simp
          | num n => simp
          | str s => simp
      · rw [if_neg hs]
  rcases hgr : get_remote_tools base gw with ⟨tools, calls⟩
  rw [hgr] at hg
  simp only [handle_message, is_method, hmethod, hgr]
  simpa using hg

/-- Witness for the amended C9 at a concrete tools/list request. -/
theorem c9_witness :
    (handle_message "http://r" gw_unreachable msg_tools_list).2 =
      [HttpCall.get "http://r/tools"] :=
  c9_amended_fetch_every_time "http://r" gw_unreachable msg_tools_list rfl
